import Mathlib

/-!
Drill-down detail navigation controller — verification.

Shallow embedding of the modal navigation / enrichment logic of
`src/frontend/src/App.tsx` (the `selectedResult` / `historyStack` /
`explanation` / `explaining` / `relatedBooks` / `loadingRelated` React
state, together with the `handleReadMore`, `handleBack` and
`handlePopState` handlers and the browser-history `pushState` side
effect).

The asynchronous part (`Promise.allSettled` over the two enrichment
fetches) is modelled by tagging every issued request pair with a fresh
identifier, keeping outstanding pairs in a `pending` list, and letting
the environment settle the two halves of a pair in any order; the
handler's continuation (lines 263–269 of `App.tsx`) fires exactly when
the second half of a pair settles, mirroring `allSettled`'s join.
-/

namespace DeepShelf

/-- The part of a book record this core looks at (identity and title). -/
structure Book where
  id : String
  title : String
  deriving DecidableEq

/-- A navigation frame: a `RecommendationResult` of `App.tsx` — the book
being displayed plus the similarity score that justified showing it. -/
structure Frame where
  book : Book
  similarity_score : Int
  deriving DecidableEq

/-- Result of `api.explainRecommendation`: a summary plus named factor
percentages (`Record<string, number>` in the source). -/
structure Explanation where
  summary : String
  details : List (String × Int)
  deriving DecidableEq

/-- One settled half of a `Promise.allSettled` pair: mirrors
`PromiseSettledResult` — either `fulfilled` with a value or `rejected`
with a reason. -/
inductive FetchResult (α : Type) where
  | fulfilled (value : α)
  | rejected (reason : String)
  deriving DecidableEq

/-- An outstanding enrichment request pair, tagged with a fresh id and
the frame it targets.  `explOutcome` / `relOutcome` record a half that
has already settled while the other is still outstanding
(`Promise.allSettled` resolves only once both have). -/
structure PendingReq where
  rid : Nat
  frame : Frame
  explOutcome : Option (FetchResult Explanation)
  relOutcome : Option (FetchResult (List Frame))
  deriving DecidableEq

/-- The modal-related React state of `App.tsx`, plus `pushCount` (the
number of synthetic entries recorded with `window.history.pushState`)
and the bookkeeping for outstanding enrichment request pairs. -/
structure AppState where
  selectedResult : Option Frame
  historyStack : List Frame
  explanation : Option Explanation
  explaining : Bool
  relatedBooks : List Frame
  loadingRelated : Bool
  pushCount : Nat
  pending : List PendingReq
  nextId : Nat
  deriving DecidableEq

/-- The mounted component's initial state: no panel open, nothing
loading, no native-history entry recorded. -/
def initState : AppState :=
  ⟨none, [], none, false, [], false, 0, [], 0⟩

/-- Synchronous phase of `handleReadMore` (App.tsx lines 240–257): push
a native-history entry iff no panel is open, update `historyStack`
according to `isDrillingDown`, make `result` current, reset the
enrichment state to loading, and issue a fresh enrichment request pair
for `result`. -/
def handleReadMoreSync (result : Frame) (isDrillingDown : Bool)
    (s : AppState) : AppState :=
  let s1 := if s.selectedResult = none then
              { s with pushCount := s.pushCount + 1 }
            else s
  let s2 :=
    match s1.selectedResult, isDrillingDown with
    | some cur, true => { s1 with historyStack := s1.historyStack ++ [cur] }
    | none, true => s1
    | _, false => { s1 with historyStack := [] }
  { s2 with
    selectedResult := some result,
    explaining := true,
    explanation := none,
    relatedBooks := [],
    loadingRelated := true,
    pending := s2.pending ++ [⟨s2.nextId, result, none, none⟩],
    nextId := s2.nextId + 1 }

/-- The related-item click handler (App.tsx line 585):
`onClick={() => handleReadMore(rel)}` — note `isDrillingDown` is left at
its default `false`. -/
def relatedItemClick (rel : Frame) (s : AppState) : AppState :=
  handleReadMoreSync rel false s

/-- `handleBack` (App.tsx lines 273–293): if `historyStack` is
non-empty, pop its last element into `selectedResult`, reset the
enrichment state to loading, and issue a fresh enrichment request pair
for the popped frame; otherwise do nothing. -/
def handleBack (s : AppState) : AppState :=
  match s.historyStack.getLast? with
  | none => s
  | some prev =>
    { s with
      historyStack := s.historyStack.dropLast,
      selectedResult := some prev,
      relatedBooks := [],
      explanation := none,
      loadingRelated := true,
      explaining := true,
      pending := s.pending ++ [⟨s.nextId, prev, none, none⟩],
      nextId := s.nextId + 1 }

/-- `handlePopState` (App.tsx lines 29–43): on a native back signal,
if a panel is open, clear `selectedResult`, `historyStack`,
`explanation` and `relatedBooks`; the loading flags and any outstanding
requests are not touched. -/
def handlePopState (s : AppState) : AppState :=
  match s.selectedResult with
  | some _ =>
    { s with
      selectedResult := none,
      historyStack := [],
      explanation := none,
      relatedBooks := [] }
  | none => s

/-- The continuation after `Promise.allSettled` (App.tsx lines
263–269): commit each fulfilled outcome, then clear both loading flags.
Note there is no check that the request's frame is still current. -/
def commitResults (expl : FetchResult Explanation)
    (rel : FetchResult (List Frame)) (s : AppState) : AppState :=
  let s1 := match expl with
    | .fulfilled e => { s with explanation := some e }
    | .rejected _ => s
  let s2 := match rel with
    | .fulfilled r => { s1 with relatedBooks := r }
    | .rejected _ => s1
  { s2 with explaining := false, loadingRelated := false }

/-- The explanation half of request pair `rid` settles.  If the related
half already settled, `allSettled` resolves and the continuation
(`commitResults`) fires; otherwise the outcome is merely recorded. -/
def settleExpl (rid : Nat) (outcome : FetchResult Explanation)
    (s : AppState) : AppState :=
  match s.pending.find? (fun r => r.rid == rid) with
  | none => s
  | some r =>
    match r.relOutcome with
    | some relO =>
      commitResults outcome relO
        { s with pending := s.pending.filter (fun q => q.rid != rid) }
    | none =>
      { s with pending := s.pending.map (fun q =>
          if q.rid == rid then { q with explOutcome := some outcome } else q) }

/-- The related-items half of request pair `rid` settles.  Symmetric to
`settleExpl`. -/
def settleRelated (rid : Nat) (outcome : FetchResult (List Frame))
    (s : AppState) : AppState :=
  match s.pending.find? (fun r => r.rid == rid) with
  | none => s
  | some r =>
    match r.explOutcome with
    | some explO =>
      commitResults explO outcome
        { s with pending := s.pending.filter (fun q => q.rid != rid) }
    | none =>
      { s with pending := s.pending.map (fun q =>
          if q.rid == rid then { q with relOutcome := some outcome } else q) }

/-- Events of the single-threaded event loop: the three user-facing
navigation operations, the native back signal, and the settling of
either half of an outstanding enrichment request pair. -/
inductive Event where
  | openFrame (f : Frame)
  | drillInto (f : Frame)
  | goBack
  | nativeBack
  | explSettled (rid : Nat) (outcome : FetchResult Explanation)
  | relatedSettled (rid : Nat) (outcome : FetchResult (List Frame))
  deriving DecidableEq

/-- One step of the event loop.  `open` is `handleReadMore(f)` and
`drillInto` is `handleReadMore(f, true)`, per the spec's mapping of the
Navigation Stack Manager operations onto `App.tsx`. -/
def step (s : AppState) : Event → AppState
  | .openFrame f => handleReadMoreSync f false s
  | .drillInto f => handleReadMoreSync f true s
  | .goBack => handleBack s
  | .nativeBack => handlePopState s
  | .explSettled rid o => settleExpl rid o s
  | .relatedSettled rid o => settleRelated rid o s

/-- Run a sequence of events from a state. -/
def run (s : AppState) (es : List Event) : AppState :=
  es.foldl step s

/-- `history.length + (current present ? 1 : 0)` — the stack size the
spec's counting invariant speaks about. -/
def stackMeasure (s : AppState) : Nat :=
  s.historyStack.length + (if s.selectedResult.isSome then 1 else 0)

/-- Number of `open`/`drillInto` events in a trace. -/
def countOpenDrill (es : List Event) : Nat :=
  (es.filter fun e => match e with
    | Event.openFrame _ => true
    | Event.drillInto _ => true
    | _ => false).length

/-- Number of `drillInto` events in a trace. -/
def countDrill (es : List Event) : Nat :=
  (es.filter fun e => match e with
    | Event.drillInto _ => true
    | _ => false).length

/-- Number of `goBack` events in a trace. -/
def countGoBack (es : List Event) : Nat :=
  (es.filter fun e => match e with
    | Event.goBack => true
    | _ => false).length

/-- Legal continuations of an episode after its opening `open`: drills,
settles, and `goBack` only while `historyStack` is non-empty (the UI
only shows the back affordance then); no further `open` and no
`nativeBack`. -/
def episodeStep : AppState → Event → Bool
  | _, Event.drillInto _ => true
  | s, Event.goBack => !s.historyStack.isEmpty
  | _, Event.explSettled _ _ => true
  | _, Event.relatedSettled _ _ => true
  | _, _ => false

/-- A trace of legal episode continuations from a given state. -/
def episodeOps : AppState → List Event → Bool
  | _, [] => true
  | s, e :: es => episodeStep s e && episodeOps (step s e) es

/-- Sample data for concrete scenarios. -/
def frameA : Frame := ⟨⟨"a", "Book A"⟩, 92⟩

/-- Sample data for concrete scenarios. -/
def frameB : Frame := ⟨⟨"b", "Book B"⟩, 87⟩

/-- Sample data for concrete scenarios. -/
def frameC : Frame := ⟨⟨"c", "Book C"⟩, 75⟩

/-- Sample explanation for concrete scenarios. -/
def exA : Explanation := ⟨"strong thematic match", [("theme", 80)]⟩

/-- The state right after a fresh `open` of `f` from the mounted
component's initial state. -/
def afterOpen (f : Frame) : AppState :=
  run initState [Event.openFrame f]

/-- The explanation value `commitResults` writes for a settled
explanation request (`if (expl.status === 'fulfilled')
setExplanation(expl.value)`, else the field stays absent). -/
def explValue : FetchResult Explanation → Option Explanation
  | .fulfilled e => some e
  | .rejected _ => none

/-- The related-books value `commitResults` writes for a settled
related request (fulfilled value, else the field keeps its reset `[]`). -/
def relValue : FetchResult (List Frame) → List Frame
  | .fulfilled r => r
  | .rejected _ => []

/-- The race trace of the spec's staleness scenario: enrichment of
`frameA` in flight, `drillInto(frameB)` before it resolves, then
`frameA`'s two fetches (request pair 0) settle. -/
def staleTrace : List Event :=
  [Event.openFrame frameA, Event.drillInto frameB,
   Event.explSettled 0 (FetchResult.fulfilled exA),
   Event.relatedSettled 0 (FetchResult.fulfilled [frameC])]

/-- An episode trace containing a second `open` while the panel is
already open. -/
def reopenTrace : List Event :=
  [Event.openFrame frameA, Event.drillInto frameB, Event.openFrame frameC]

/-- Claim C1 (code bug in the source): in the staleness scenario —
enrichment of `frameA` in flight, `drillInto(frameB)` before it
resolves — the arriving result for `frameA` IS written into the
enrichment state: the continuation commits `frameA`'s explanation and
related list and clears both loading flags while `frameB` is current
(and `frameB`'s own request pair 1 is still outstanding).  The first
conjunct documents that request pair 0 targets `frameA` and pair 1
targets `frameB`. -/
theorem C1_stale_result_written :
    (run initState [Event.openFrame frameA, Event.drillInto frameB]).pending
      = [⟨0, frameA, none, none⟩, ⟨1, frameB, none, none⟩] ∧
    (run initState staleTrace).selectedResult = some frameB ∧
    (run initState staleTrace).explanation = some exA ∧
    (run initState staleTrace).relatedBooks = [frameC] ∧
    (run initState staleTrace).explaining = false ∧
    (run initState staleTrace).loadingRelated = false :=
  ⟨rfl, rfl, rfl, rfl, rfl, rfl⟩

/-- Counterexample to claim C2 as stated: after `open(frameA)`, the
related-items request resolves (fulfilled) while the explanation
request is still outstanding — yet `relatedBooks` is not set and
`loadingRelated` is still `true`, because the source commits only at
the `Promise.allSettled` join. -/
theorem C2_counterexample :
    (run initState [Event.openFrame frameA,
      Event.relatedSettled 0 (FetchResult.fulfilled [frameB])]).loadingRelated = true ∧
    (run initState [Event.openFrame frameA,
      Event.relatedSettled 0 (FetchResult.fulfilled [frameB])]).relatedBooks = [] ∧
    (run initState [Event.openFrame frameA,
      Event.relatedSettled 0 (FetchResult.fulfilled [frameB])]).explaining = true :=
  ⟨rfl, rfl, rfl⟩

/-- Claim C2 (amended): the two outcomes are committed jointly, not
independently.  While only one of the two requests has settled, nothing
is committed and both loading flags keep their values; when the second
one settles — in either order — both fulfilled results are written and
both flags cleared together. -/
theorem C2_joint_commit (f : Frame) (eo : FetchResult Explanation)
    (ro : FetchResult (List Frame)) :
    (run (afterOpen f) [Event.explSettled 0 eo]).explaining = true ∧
    (run (afterOpen f) [Event.explSettled 0 eo]).loadingRelated = true ∧
    (run (afterOpen f) [Event.explSettled 0 eo]).explanation = none ∧
    (run (afterOpen f) [Event.relatedSettled 0 ro]).loadingRelated = true ∧
    (run (afterOpen f) [Event.relatedSettled 0 ro]).explaining = true ∧
    (run (afterOpen f) [Event.relatedSettled 0 ro]).relatedBooks = [] ∧
    run (afterOpen f) [Event.explSettled 0 eo, Event.relatedSettled 0 ro]
      = run (afterOpen f) [Event.relatedSettled 0 ro, Event.explSettled 0 eo] ∧
    (run (afterOpen f) [Event.explSettled 0 eo, Event.relatedSettled 0 ro]).explaining = false ∧
    (run (afterOpen f) [Event.explSettled 0 eo, Event.relatedSettled 0 ro]).loadingRelated = false ∧
    (run (afterOpen f) [Event.explSettled 0 eo, Event.relatedSettled 0 ro]).explanation = explValue eo ∧
    (run (afterOpen f) [Event.explSettled 0 eo, Event.relatedSettled 0 ro]).relatedBooks = relValue ro := by
  cases eo <;> cases ro <;>
    exact ⟨rfl, rfl, rfl, rfl, rfl, rfl, rfl, rfl, rfl, rfl, rfl⟩

/-- Claim C3 (code bug in the source): clicking a related item inside
an open panel (`onClick={() => handleReadMore(rel)}`, App.tsx line 585)
passes no `isDrillingDown` flag, so instead of appending the current
frame to `historyStack` the click clears it: after opening `frameA` and
clicking related `frameB`, the history is `[]` (not `[frameA]`) and the
stack did not grow. -/
theorem C3_related_click_clears_history :
    (relatedItemClick frameB (run initState [Event.openFrame frameA])).selectedResult
      = some frameB ∧
    (relatedItemClick frameB (run initState [Event.openFrame frameA])).historyStack = [] ∧
    stackMeasure (relatedItemClick frameB (run initState [Event.openFrame frameA]))
      = stackMeasure (run initState [Event.openFrame frameA]) :=
  ⟨rfl, rfl, rfl⟩

/-- Claim C4: whenever `historyStack` is non-empty, `handleBack` pops
its last element into `selectedResult` and removes it, leaving the
earlier elements unchanged. -/
theorem C4_goBack_pops (s : AppState) (h : List Frame) (x : Frame)
    (hh : s.historyStack = h ++ [x]) :
    (handleBack s).selectedResult = some x ∧ (handleBack s).historyStack = h := by
  have h1 : s.historyStack.getLast? = some x := by
    rw [hh]; exact List.getLast?_concat _
  have h2 : s.historyStack.dropLast = h := by
    rw [hh]; exact List.dropLast_concat
  unfold handleBack
  rw [h1]
  exact ⟨rfl, h2⟩

/-- Witness for C4: the spec scenario
`open(FrameA); drillInto(FrameB); drillInto(FrameC); goBack()` yields
`current = FrameB` and `history = [FrameA]`. -/
theorem C4_witness :
    (run initState [Event.openFrame frameA, Event.drillInto frameB,
      Event.drillInto frameC, Event.goBack]).selectedResult = some frameB ∧
    (run initState [Event.openFrame frameA, Event.drillInto frameB,
      Event.drillInto frameC, Event.goBack]).historyStack = [frameA] :=
  C4_goBack_pops
    (run initState [Event.openFrame frameA, Event.drillInto frameB, Event.drillInto frameC])
    [frameA] frameB rfl

/-- Claim C5: whenever a panel is open, a native back signal
(`handlePopState`) performs a full collapse: `selectedResult` becomes
absent and `historyStack` empty, regardless of drill depth. -/
theorem C5_nativeBack_closes_all (s : AppState) (f : Frame)
    (h : s.selectedResult = some f) :
    (handlePopState s).selectedResult = none ∧
    (handlePopState s).historyStack = [] := by
  unfold handlePopState
  rw [h]
  exact ⟨rfl, rfl⟩

/-- Witness for C5: the spec scenario
`open(FrameA); drillInto(FrameB); onNativeBack()` yields
`current = absent`, `history = empty` — not a single-step pop. -/
theorem C5_witness :
    (handlePopState (run initState
      [Event.openFrame frameA, Event.drillInto frameB])).selectedResult = none ∧
    (handlePopState (run initState
      [Event.openFrame frameA, Event.drillInto frameB])).historyStack = [] :=
  C5_nativeBack_closes_all
    (run initState [Event.openFrame frameA, Event.drillInto frameB]) frameB rfl

/-- Claim C8: a rejected `fetchExplanation` resolves to
`explanation = none` with `explaining = false`, whichever order the two
halves settle in; the failure is an ordinary `rejected` value handled
by the total function `commitResults` — mirroring that
`Promise.allSettled` never rejects, no exception crosses into the
navigation logic. -/
theorem C8_failed_explanation (f : Frame) (err : String)
    (ro : FetchResult (List Frame)) :
    (run initState [Event.openFrame f,
      Event.explSettled 0 (FetchResult.rejected err),
      Event.relatedSettled 0 ro]).explanation = none ∧
    (run initState [Event.openFrame f,
      Event.explSettled 0 (FetchResult.rejected err),
      Event.relatedSettled 0 ro]).explaining = false ∧
    (run initState [Event.openFrame f, Event.relatedSettled 0 ro,
      Event.explSettled 0 (FetchResult.rejected err)]).explanation = none ∧
    (run initState [Event.openFrame f, Event.relatedSettled 0 ro,
      Event.explSettled 0 (FetchResult.rejected err)]).explaining = false := by
  cases ro <;> exact ⟨rfl, rfl, rfl, rfl⟩

/-- Counterexample to claim C9 as stated: calling `drillInto` with no
current frame signals nothing — the source has no `InvalidStateError`
path — and silently mutates the navigation state: it sets the clicked
frame current, records a native-history entry, and the state differs
from the initial one. -/
theorem C9_counterexample :
    (run initState [Event.drillInto frameB]).selectedResult = some frameB ∧
    (run initState [Event.drillInto frameB]).pushCount = 1 ∧
    run initState [Event.drillInto frameB] ≠ initState := by
  refine ⟨rfl, rfl, ?_⟩
  decide

/-- Claim C9 (amended): calling `drillInto` with no current frame
signals no error; it silently sets the frame current, records a
native-history entry (the `!selectedResult` guard sees a closed panel),
and leaves `historyStack` untouched. -/
theorem C9_drill_without_current (s : AppState) (f : Frame)
    (h : s.selectedResult = none) :
    (handleReadMoreSync f true s).selectedResult = some f ∧
    (handleReadMoreSync f true s).historyStack = s.historyStack ∧
    (handleReadMoreSync f true s).pushCount = s.pushCount + 1 := by
  simp [handleReadMoreSync, h]

/-- Witness for C9 (amended), at the initial state. -/
theorem C9_witness :
    (handleReadMoreSync frameB true initState).selectedResult = some frameB ∧
    (handleReadMoreSync frameB true initState).historyStack = [] ∧
    (handleReadMoreSync frameB true initState).pushCount = 1 :=
  C9_drill_without_current initState frameB rfl

/-- Claim C10: the native back teardown clears exactly `selectedResult`,
`historyStack`, `explanation` and `relatedBooks`; the `explaining` and
`loadingRelated` flags (and the outstanding request pairs) are left
unchanged, so flags of an in-flight enrichment stay `true` after the
panel closes, until that request pair settles. -/
theorem C10_nativeBack_preserves_flags (s : AppState) (f : Frame)
    (h : s.selectedResult = some f) :
    (handlePopState s).selectedResult = none ∧
    (handlePopState s).historyStack = [] ∧
    (handlePopState s).explanation = none ∧
    (handlePopState s).relatedBooks = [] ∧
    (handlePopState s).explaining = s.explaining ∧
    (handlePopState s).loadingRelated = s.loadingRelated ∧
    (handlePopState s).pending = s.pending := by
  unfold handlePopState
  rw [h]
  exact ⟨rfl, rfl, rfl, rfl, rfl, rfl, rfl⟩

/-- `commitResults` touches only the enrichment fields: the navigation
fields (`selectedResult`, `historyStack`, `pushCount`) are preserved. -/
theorem commitResults_nav (eo : FetchResult Explanation)
    (ro : FetchResult (List Frame)) (s : AppState) :
    (commitResults eo ro s).selectedResult = s.selectedResult ∧
    (commitResults eo ro s).historyStack = s.historyStack ∧
    (commitResults eo ro s).pushCount = s.pushCount := by
  cases eo <;> cases ro <;> exact ⟨rfl, rfl, rfl⟩

/-- `settleExpl` preserves the navigation fields. -/
theorem settleExpl_nav (rid : Nat) (o : FetchResult Explanation) (s : AppState) :
    (settleExpl rid o s).selectedResult = s.selectedResult ∧
    (settleExpl rid o s).historyStack = s.historyStack ∧
    (settleExpl rid o s).pushCount = s.pushCount := by
  unfold settleExpl
  split
  · exact ⟨rfl, rfl, rfl⟩
  · split
    · exact commitResults_nav _ _ _
    · exact ⟨rfl, rfl, rfl⟩

/-- `settleRelated` preserves the navigation fields. -/
theorem settleRelated_nav (rid : Nat) (o : FetchResult (List Frame)) (s : AppState) :
    (settleRelated rid o s).selectedResult = s.selectedResult ∧
    (settleRelated rid o s).historyStack = s.historyStack ∧
    (settleRelated rid o s).pushCount = s.pushCount := by
  unfold settleRelated
  split
  · exact ⟨rfl, rfl, rfl⟩
  · split
    · exact commitResults_nav _ _ _
    · exact ⟨rfl, rfl, rfl⟩

/-- While a panel is open, every event except the native back signal
keeps it open and records no native-history entry. -/
theorem step_keeps_open (s : AppState) (e : Event)
    (hs : s.selectedResult.isSome = true) (he : e ≠ Event.nativeBack) :
    (step s e).selectedResult.isSome = true ∧
    (step s e).pushCount = s.pushCount := by
  obtain ⟨x, hx⟩ := Option.isSome_iff_exists.mp hs
  cases e with
  | openFrame f => simp [step, handleReadMoreSync, hx]
  | drillInto f => simp [step, handleReadMoreSync, hx]
  | goBack =>
    show (handleBack s).selectedResult.isSome = true ∧ (handleBack s).pushCount = s.pushCount
    unfold handleBack
    split
    · exact ⟨hs, rfl⟩
    · exact ⟨rfl, rfl⟩
  | nativeBack => exact absurd rfl he
  | explSettled rid o =>
    have h := settleExpl_nav rid o s
    exact ⟨by show (settleExpl rid o s).selectedResult.isSome = true; rw [h.1]; exact hs, h.2.2⟩
  | relatedSettled rid o =>
    have h := settleRelated_nav rid o s
    exact ⟨by show (settleRelated rid o s).selectedResult.isSome = true; rw [h.1]; exact hs, h.2.2⟩

/-- Running any native-back-free trace from an open panel keeps the
panel open and records no native-history entry. -/
theorem run_keeps_open (ops : List Event) : ∀ s : AppState,
    s.selectedResult.isSome = true → (∀ e ∈ ops, e ≠ Event.nativeBack) →
    (run s ops).selectedResult.isSome = true ∧
    (run s ops).pushCount = s.pushCount := by
  induction ops with
  | nil => intro s hs _; exact ⟨hs, rfl⟩
  | cons e es ih =>
    intro s hs hops
    have h1 := step_keeps_open s e hs (hops e (List.mem_cons_self e es))
    have h2 := ih (step s e) h1.1 (fun x hx => hops x (List.mem_cons_of_mem e hx))
    exact ⟨h2.1, h2.2.trans h1.2⟩

/-- Claim C6: throughout any panel-open episode — an `open` from a
closed panel followed by any events other than the native back signal
(further opens, drills, goBacks, fetch settlements) — exactly one
native-history entry is recorded, by the initial `open`. -/
theorem C6_one_entry_per_episode (s : AppState) (f : Frame) (ops : List Event)
    (hclosed : s.selectedResult = none)
    (hops : ∀ e ∈ ops, e ≠ Event.nativeBack) :
    (run (step s (Event.openFrame f)) ops).pushCount = s.pushCount + 1 := by
  have hopen1 : (step s (Event.openFrame f)).selectedResult.isSome = true := by
    simp [step, handleReadMoreSync, hclosed]
  have hopen2 : (step s (Event.openFrame f)).pushCount = s.pushCount + 1 := by
    simp [step, handleReadMoreSync, hclosed]
  have h := run_keeps_open ops (step s (Event.openFrame f)) hopen1 hops
  rw [h.2, hopen2]

/-- Witness for C6: `open(frameA)` then a drill, a re-open and a goBack
record exactly one native-history entry in total. -/
theorem C6_witness :
    (∀ e ∈ [Event.drillInto frameB, Event.openFrame frameC, Event.goBack],
      e ≠ Event.nativeBack) ∧
    (run (step initState (Event.openFrame frameA))
      [Event.drillInto frameB, Event.openFrame frameC, Event.goBack]).pushCount = 1 := by
  refine ⟨by decide, ?_⟩
  exact C6_one_entry_per_episode initState frameA
    [Event.drillInto frameB, Event.openFrame frameC, Event.goBack] rfl (by decide)

/-- An open panel has a positive stack measure. -/
theorem stackMeasure_pos (s : AppState) (hs : s.selectedResult.isSome = true) :
    1 ≤ stackMeasure s := by
  simp [stackMeasure, hs]

/-- Counting invariant along legal episode continuations: drills add
one to the stack measure, guarded goBacks remove one, settlements leave
it unchanged, and the panel stays open. -/
theorem episode_measure (ops : List Event) : ∀ s : AppState,
    s.selectedResult.isSome = true → episodeOps s ops = true →
    stackMeasure (run s ops) + countGoBack ops = stackMeasure s + countDrill ops ∧
    (run s ops).selectedResult.isSome = true := by
  induction ops with
  | nil => intro s hs _; exact ⟨rfl, hs⟩
  | cons e es ih =>
    intro s hs hep
    rw [episodeOps, Bool.and_eq_true] at hep
    obtain ⟨hep1, hep2⟩ := hep
    cases e with
    | openFrame f => simp [episodeStep] at hep1
    | nativeBack => simp [episodeStep] at hep1
    | drillInto f =>
      obtain ⟨x, hx⟩ := Option.isSome_iff_exists.mp hs
      have hm : stackMeasure (step s (Event.drillInto f)) = stackMeasure s + 1 := by
        simp [step, handleReadMoreSync, stackMeasure, hx]
      have ho : (step s (Event.drillInto f)).selectedResult.isSome = true := by
        simp [step, handleReadMoreSync, hx]
      have h2 := ih (step s (Event.drillInto f)) ho hep2
      refine ⟨?_, h2.2⟩
      show stackMeasure (run (step s (Event.drillInto f)) es) + countGoBack es
        = stackMeasure s + (countDrill es + 1)
      have h3 := h2.1
      rw [hm] at h3
      omega
    | goBack =>
      have hep1' : (!s.historyStack.isEmpty) = true := hep1
      have hne : s.historyStack ≠ [] := by
        intro hnil
        rw [hnil] at hep1'
        simp at hep1'
      obtain ⟨x, hl⟩ := Option.isSome_iff_exists.mp
        (List.getLast?_isSome.mpr hne)
      have hm : stackMeasure (step s Event.goBack) + 1 = stackMeasure s := by
        show stackMeasure (handleBack s) + 1 = stackMeasure s
        unfold handleBack
        rw [hl]
        have hpos : 0 < s.historyStack.length := List.length_pos.mpr hne
        simp [stackMeasure, hs, List.length_dropLast]
        omega
      have ho : (step s Event.goBack).selectedResult.isSome = true := by
        show (handleBack s).selectedResult.isSome = true
        unfold handleBack
        rw [hl]
        rfl
      have h2 := ih (step s Event.goBack) ho hep2
      refine ⟨?_, h2.2⟩
      show stackMeasure (run (step s Event.goBack) es) + (countGoBack es + 1)
        = stackMeasure s + countDrill es
      have h3 := h2.1
      omega
    | explSettled rid o =>
      have hnav := settleExpl_nav rid o s
      have hm : stackMeasure (step s (Event.explSettled rid o)) = stackMeasure s := by
        show stackMeasure (settleExpl rid o s) = stackMeasure s
        simp [stackMeasure, hnav.1, hnav.2.1]
      have ho : (step s (Event.explSettled rid o)).selectedResult.isSome = true := by
        show (settleExpl rid o s).selectedResult.isSome = true
        rw [hnav.1]
        exact hs
      have h2 := ih (step s (Event.explSettled rid o)) ho hep2
      refine ⟨?_, h2.2⟩
      show stackMeasure (run (step s (Event.explSettled rid o)) es) + countGoBack es
        = stackMeasure s + countDrill es
      rw [← hm]
      exact h2.1
    | relatedSettled rid o =>
      have hnav := settleRelated_nav rid o s
      have hm : stackMeasure (step s (Event.relatedSettled rid o)) = stackMeasure s := by
        show stackMeasure (settleRelated rid o s) = stackMeasure s
        simp [stackMeasure, hnav.1, hnav.2.1]
      have ho : (step s (Event.relatedSettled rid o)).selectedResult.isSome = true := by
        show (settleRelated rid o s).selectedResult.isSome = true
        rw [hnav.1]
        exact hs
      have h2 := ih (step s (Event.relatedSettled rid o)) ho hep2
      refine ⟨?_, h2.2⟩
      show stackMeasure (run (step s (Event.relatedSettled rid o)) es) + countGoBack es
        = stackMeasure s + countDrill es
      rw [← hm]
      exact h2.1

/-- Counterexample to claim C7 as stated: the trace
`open(frameA); drillInto(frameB); open(frameC)` has three
`open`/`drillInto` calls and no `goBack`, yet the final
`history.length + (current present ? 1 : 0)` is `1`, not `3` — a
mid-episode `open` clears the history, so the claimed equality fails. -/
theorem C7_counterexample :
    countOpenDrill reopenTrace = 3 ∧ countGoBack reopenTrace = 0 ∧
    stackMeasure (run initState reopenTrace) = 1 :=
  ⟨rfl, rfl, rfl⟩

/-- Claim C7 (amended): for every episode in which `open` occurs only
as the initial call and every `goBack` is issued while `history` is
non-empty (the sequences `episodeOps` admits),
`history.length + (current present ? 1 : 0)` equals
`1 + number of drillInto calls − number of goBack calls` (stated
additively to avoid truncated subtraction), and the quantity never goes
negative — it stays at least `1`. -/
theorem C7_episode_count (s : AppState) (f : Frame) (ops : List Event)
    (hclosed : s.selectedResult = none)
    (hep : episodeOps (step s (Event.openFrame f)) ops = true) :
    stackMeasure (run (step s (Event.openFrame f)) ops) + countGoBack ops
      = 1 + countDrill ops ∧
    1 ≤ stackMeasure (run (step s (Event.openFrame f)) ops) := by
  have hopen_m : stackMeasure (step s (Event.openFrame f)) = 1 := by
    simp [step, handleReadMoreSync, stackMeasure, hclosed]
  have hopen_o : (step s (Event.openFrame f)).selectedResult.isSome = true := by
    simp [step, handleReadMoreSync, hclosed]
  have h := episode_measure ops (step s (Event.openFrame f)) hopen_o hep
  constructor
  · rw [h.1, hopen_m]
  · exact stackMeasure_pos _ h.2

/-- Witness for C7 (amended): after `open(frameA)` the continuation
`drillInto(frameB); drillInto(frameC); goBack()` is legal, and the
measure satisfies `measure + 1 = 1 + 2`. -/
theorem C7_witness :
    episodeOps (step initState (Event.openFrame frameA))
      [Event.drillInto frameB, Event.drillInto frameC, Event.goBack] = true ∧
    stackMeasure (run (step initState (Event.openFrame frameA))
      [Event.drillInto frameB, Event.drillInto frameC, Event.goBack]) + 1 = 1 + 2 := by
  refine ⟨by decide, ?_⟩
  exact (C7_episode_count initState frameA
    [Event.drillInto frameB, Event.drillInto frameC, Event.goBack] rfl (by decide)).1

/-- Witness for C10: closing while the enrichment of `frameA` is still
in flight leaves both loading flags `true` after the panel is closed. -/
theorem C10_witness :
    (handlePopState (run initState [Event.openFrame frameA])).explaining = true ∧
    (handlePopState (run initState [Event.openFrame frameA])).loadingRelated = true ∧
    (handlePopState (run initState [Event.openFrame frameA])).selectedResult = none := by
  have h := C10_nativeBack_preserves_flags
    (run initState [Event.openFrame frameA]) frameA rfl
  exact ⟨h.2.2.2.2.1, h.2.2.2.2.2.1, h.1⟩

end DeepShelf
